import Mathlib

/-!
Formal model of the heal_be biometric backend.

This file gives a shallow embedding, in Lean 4, of the parts of the
repository that the verified statements below talk about:

* `services/hrv_processor.py` — the `HRVProcessor` class: the bounded PPG
  sample buffer, `calculate_rr_intervals`, `calculate_hrv_metrics` and the
  realtime path `process_realtime_data`;
* `services/brainflow_service.py` — the heuristic main-data channel
  classification of `_extract_emotibit_sensors` and the
  connect / start-streaming / stop-streaming / disconnect lifecycle of
  `EmotiBitService`;
* `api/routes.py` — the `/streaming/start` route.

Numeric values (Python floats / numpy arrays) are modelled as rationals,
except where the source takes a real square root (`np.std`, RMSSD), in
which case the value lives in `ℝ` via `Real.sqrt`.  Python's `round(x, n)`
uses banker's rounding; it is embedded as round-to-nearest (`round` of
Mathlib).  No statement proved below sits on a rounding tie, so the two
conventions agree on everything stated here.
-/

namespace HealBe

/-! ### Basic numpy-style helpers (means, population variance, diffs) -/

/-- `np.mean` over a rational list: sum divided by length (division by zero
yields 0 in Lean; every use in the source is guarded to nonempty input). -/
def meanQ (l : List ℚ) : ℚ := l.sum / l.length

/-- Square of `np.std` (population variance): mean of squared deviations
from the mean. -/
def popVarQ (l : List ℚ) : ℚ := meanQ (l.map (fun x => (x - meanQ l) ^ 2))

/-- `np.diff`: consecutive differences `l[i+1] - l[i]`. -/
def diffsQ (l : List ℚ) : List ℚ := List.zipWith (fun b a => b - a) l.tail l

/-- Mean of squared successive differences (the quantity under the square
root in the source's RMSSD computation). -/
def msdQ (l : List ℚ) : ℚ := meanQ ((diffsQ l).map (fun d => d ^ 2))

/-- Python `round(q, 1)` on a rational (round to nearest, see header note
about ties). -/
def round1Q (q : ℚ) : ℚ := (round (10 * q) : ℤ) / 10

/-- Python `round(q, 2)` on a rational. -/
def round2Q (q : ℚ) : ℚ := (round (100 * q) : ℤ) / 100

/-- Python `round(q, 6)` on a rational. -/
def round6Q (q : ℚ) : ℚ := (round (1000000 * q) : ℤ) / 1000000

/-! ### Bounded FIFO buffers (`collections.deque(maxlen=cap)`)

`HRVProcessor.__init__` builds `deque(maxlen=settings.BUFFER_SIZE * 2)` and
`deque(maxlen=100)`; `EmotiBitDirect.__init__` builds deques with
`maxlen=1000` and `maxlen=250`.  Appending to a full bounded deque discards
the item at the opposite end, i.e. the oldest entry. -/

/-- `deque(maxlen := cap).append x` on a buffer holding `l` (oldest first):
append `x` and drop from the front whatever exceeds the capacity. -/
def pushDeque (cap : ℕ) (l : List α) (x : α) : List α :=
  (l ++ [x]).drop (l.length + 1 - cap)

/-- `settings.BUFFER_SIZE` (250, ten seconds at 25 Hz). -/
def bufferSize : ℕ := 250

/-- Capacity of `HRVProcessor.ppg_buffer` (`BUFFER_SIZE * 2`). -/
def ppgBufferCap : ℕ := bufferSize * 2

/-- Capacity of the per-sensor deques in `EmotiBitDirect.__init__`. -/
def emotibitSensorCap : ℕ := 250

/-- One entry of `HRVProcessor.ppg_buffer`: the dict
`{'ppg': ppg, 'timestamp': ts}`. -/
structure PpgSample where
  ppg : ℚ
  timestamp : ℚ
  deriving DecidableEq, Repr

/-- `HRVProcessor.add_ppg_data`: push each `(ppg, ts)` pair of
`zip(ppg_data, timestamps)` onto the bounded PPG buffer. -/
def addPpgData (buf : List PpgSample) (ppgData timestamps : List ℚ) : List PpgSample :=
  (ppgData.zip timestamps).foldl
    (fun b p => pushDeque ppgBufferCap b ⟨p.1, p.2⟩) buf

/-! ### `HRVProcessor.calculate_rr_intervals` -/

/-- `timestamps[i]` as a total lookup.  Out-of-range peak indices read 0
(the source assumes peak indices produced by `detect_peaks` on the same
window, which are in bounds; the theorems below carry that bound). -/
def tsAt (ts : List ℚ) (i : ℕ) : ℚ := ts.getD i 0

/-- Loop body of `calculate_rr_intervals`: walk consecutive peak pairs,
convert the timestamp difference to milliseconds, and keep it only when it
lies in the physiological band [300, 2000] ms. -/
def calcRRAux (ts : List ℚ) : List ℕ → List ℚ
  | p :: q :: rest =>
    let rr := (tsAt ts q - tsAt ts p) * 1000
    if 300 ≤ rr ∧ rr ≤ 2000 then rr :: calcRRAux ts (q :: rest)
    else calcRRAux ts (q :: rest)
  | _ => []

/-- `HRVProcessor.calculate_rr_intervals(peaks, timestamps)`. -/
def calculateRRIntervals (peaks : List ℕ) (timestamps : List ℚ) : List ℚ :=
  if peaks.length < 2 then [] else calcRRAux timestamps peaks

/-- The consecutive-peak intervals in milliseconds, before the
physiological filter. -/
def consecDiffsMs (peaks : List ℕ) (timestamps : List ℚ) : List ℚ :=
  (peaks.zip peaks.tail).map (fun pq => (tsAt timestamps pq.2 - tsAt timestamps pq.1) * 1000)

/-! ### Heuristic main-data channel classification
(`EmotiBitService._extract_emotibit_sensors`, the fallback entered when no
preset produced PPG/EDA/temperature data) -/

/-- `row.tolist()[-10:]`: the last `n` entries of a channel's values. -/
def lastN (n : ℕ) (l : List ℚ) : List ℚ := l.drop (l.length - n)

/-- `np.mean(ch_data) if ch_data else 0`. -/
def avgOf (chData : List ℚ) : ℚ := if chData = [] then 0 else meanQ chData

/-- `1000 < abs(avg_val) < 100000` — "PPG-like values" (strict bounds,
exactly as in the source). -/
def ppgLike (a : ℚ) : Bool := decide (1000 < |a|) && decide (|a| < 100000)

/-- `0 <= avg_val <= 10` — "EDA-like values". -/
def edaRange (a : ℚ) : Bool := decide (0 ≤ a) && decide (a ≤ 10)

/-- `20 <= avg_val <= 45` — "Temperature-like values". -/
def tempRange (a : ℚ) : Bool := decide (20 ≤ a) && decide (a ≤ 45)

/-- A channel window is routed to the EDA slot iff it missed the PPG branch
and sits in the EDA range (the source's `elif` chain). -/
def edaSel (a : ℚ) : Bool := !ppgLike a && edaRange a

/-- A channel window is routed to the temperature slot iff it missed both
the PPG and EDA branches and sits in the temperature range. -/
def tempSel (a : ℚ) : Bool := !ppgLike a && !edaRange a && tempRange a

/-- The three slots the fallback loop can fill (`sensor_data['ppg']`,
`sensor_data['eda']`, `sensor_data['temperature']`, each initially `[]`).
The loop never touches accelerometer / gyroscope / magnetometer slots. -/
structure MainAssign where
  ppg : List ℚ
  eda : List ℚ
  temperature : List ℚ
  deriving DecidableEq, Repr

/-- The body of `for ch in range(min(num_channels, 10))`: classify each
channel window by its mean and store it in the matching slot if, and only
if, that slot is still empty (`if not sensor_data[...]`). -/
def classifyGo : List (List ℚ) → MainAssign → MainAssign
  | [], s => s
  | w :: ws, s =>
    let a := avgOf w
    classifyGo ws
      (if ppgLike a then (if s.ppg = [] then { s with ppg := w } else s)
       else if edaRange a then (if s.eda = [] then { s with eda := w } else s)
       else if tempRange a then
         (if s.temperature = [] then { s with temperature := w } else s)
       else s)

/-- The main-data heuristic fallback of `_extract_emotibit_sensors`
(lines 363–387): inspect the first `min(num_channels, 10)` channels, each
through its last-10-sample window, and classify by windowed mean. -/
def classifyMainChannels (channels : List (List ℚ)) : MainAssign :=
  classifyGo ((channels.take 10).map (lastN 10)) ⟨[], [], []⟩

/-- First window among the candidates whose mean satisfies `p`
(empty list when none does) — the specification-side characterisation of a
slot filled by the fallback loop. -/
def firstWindow (p : ℚ → Bool) (channels : List (List ℚ)) : List ℚ :=
  (((channels.take 10).map (lastN 10)).find? (fun w => p (avgOf w))).getD []

/-! ### `EmotiBitService` lifecycle and the `/streaming/start` route -/

/-- What `self.board` can hold: a real `BoardShim`, the synthetic
`BoardShim`, or the `"mock_board"` marker string. -/
inductive BoardKind
  | real
  | synthetic
  | mockBoard
  deriving DecidableEq, Fintype, Repr

/-- The `EmotiBitService` fields the lifecycle methods read and write. -/
structure SvcState where
  board : Option BoardKind
  isStreaming : Bool
  isMockMode : Bool
  deriving DecidableEq, Fintype, Repr

/-- `EmotiBitService.__init__`: no board, not streaming, not mock. -/
def svcInit : SvcState := ⟨none, false, false⟩

/-- The observable outcomes of `connect()`: a real board, the synthetic
fallback, the mock fallback (which also sets `is_mock_mode`), or failure
(board cleaned up to `None`).  None of them touches `is_streaming`. -/
inductive ConnectOutcome
  | realOk
  | synthOk
  | mockOk
  | fail
  deriving DecidableEq, Fintype, Repr

/-- State effect of `connect()` for a given outcome. -/
def connectSvc (o : ConnectOutcome) (s : SvcState) : SvcState :=
  match o with
  | .realOk => { s with board := some .real }
  | .synthOk => { s with board := some .synthetic }
  | .mockOk => { s with board := some .mockBoard, isMockMode := true }
  | .fail => { s with board := none }

/-- `EmotiBitService.start_streaming()`: refuse when no board is attached
(state untouched); in mock mode set `is_streaming` directly; otherwise
`board.start_stream(45000)` may raise (`extOk = false`), in which case the
`except` branch returns `False` with the state unchanged. -/
def startStreamingSvc (s : SvcState) (extOk : Bool) : Bool × SvcState :=
  if s.board = none then (false, s)
  else if s.isMockMode then (true, { s with isStreaming := true })
  else if extOk then (true, { s with isStreaming := true })
  else (false, s)

/-- `EmotiBitService.stop_streaming()`: only acts when a board is attached
and streaming; `board.stop_stream()` may raise (`extOk = false`), leaving
`is_streaming` set. -/
def stopStreamingSvc (s : SvcState) (extOk : Bool) : SvcState :=
  if s.board ≠ none ∧ s.isStreaming then
    (if extOk then { s with isStreaming := false } else s)
  else s

/-- `EmotiBitService.disconnect()`: stop streaming, then release the board;
`board.release_session()` may raise (`relOk = false`), leaving the board
attached. -/
def disconnectSvc (s : SvcState) (stopOk relOk : Bool) : SvcState :=
  let s1 := stopStreamingSvc s stopOk
  if s1.board ≠ none then (if relOk then { s1 with board := none } else s1)
  else s1

/-- One lifecycle call, with the fallibility of the external BrainFlow
calls made explicit. -/
inductive SvcOp
  | connect (o : ConnectOutcome)
  | startStream (extOk : Bool)
  | stopStream (extOk : Bool)
  | disconnect (stopOk relOk : Bool)
  deriving DecidableEq, Fintype, Repr

/-- Apply one lifecycle call to the service state. -/
def stepSvc (op : SvcOp) (s : SvcState) : SvcState :=
  match op with
  | .connect o => connectSvc o s
  | .startStream extOk => (startStreamingSvc s extOk).2
  | .stopStream extOk => stopStreamingSvc s extOk
  | .disconnect stopOk relOk => disconnectSvc s stopOk relOk

/-- Outcome of an HTTP route call: a JSON message or an `HTTPException`
with status code and detail, plus the resulting service state. -/
inductive RouteResult
  | success (msg : String) (s : SvcState)
  | httpError (code : ℕ) (detail : String) (s : SvcState)
  deriving DecidableEq, Repr

/-- The `/streaming/start` route (`api/routes.py`, lines 56–70).  The
handler raises `HTTPException(400, "Device not connected")` when no board
is attached; because the surrounding `except Exception` clause catches
`HTTPException` too, the error actually leaves the handler re-raised as
`HTTPException(500, str(e))` where `str(e)` is `"400: Device not
connected"`. -/
def routeStartStreaming (s : SvcState) (extOk : Bool) : RouteResult :=
  if s.board = none then .httpError 500 "400: Device not connected" s
  else
    let r := startStreamingSvc s extOk
    if r.1 then .success "Streaming started" r.2
    else .httpError 500 "400: Failed to start streaming" r.2

/-! ### `HRVProcessor.calculate_hrv_metrics` -/

/-- Python `round(x, 1)` on a real (round to nearest, see header note). -/
noncomputable def round1R (x : ℝ) : ℝ := ((round (10 * x) : ℤ) : ℝ) / 10

/-- Python `round(x, 6)` on a real. -/
noncomputable def round6R (x : ℝ) : ℝ := ((round (1000000 * x) : ℤ) : ℝ) / 1000000

/-- `np.std`: the (real) square root of the population variance. -/
noncomputable def npStdQ (l : List ℚ) : ℝ := Real.sqrt ((popVarQ l : ℚ) : ℝ)

/-- The dictionary `calculate_hrv_metrics` returns for ≥ 5 RR intervals. -/
structure HRVMetrics where
  heart_rate : ℚ
  mean_rr : ℚ
  sdnn : ℝ
  rmssd : ℝ
  stress_score : ℝ
  hrv_quality : String

/-- `HRVProcessor.calculate_hrv_metrics(rr_intervals)`: `{}` (here `none`)
for fewer than 5 intervals, otherwise the time-domain metrics, each rounded
to one decimal place.  The `except` clause of the source cannot fire on
pure arithmetic and has no counterpart here. -/
noncomputable def calculateHrvMetrics (rr : List ℚ) : Option HRVMetrics :=
  if rr.length < 5 then none
  else
    some
      { heart_rate := round1Q (if 0 < meanQ rr then 60000 / meanQ rr else 0)
        mean_rr := round1Q (meanQ rr)
        sdnn := round1R (npStdQ rr)
        rmssd := round1R (Real.sqrt ((msdQ rr : ℚ) : ℝ))
        stress_score := round1R (max 0 (min 100 (100 - npStdQ rr / 50 * 100)))
        hrv_quality := if 20 < npStdQ rr then "good" else "low" }

/-! ### `HRVProcessor.process_realtime_data`

Exceptions are made explicit through a `FailOracle`: each `try` block of
the source may be interrupted by the runtime (numpy, memory, …); a `true`
flag means the corresponding block raised and its `except` clause ran.
The function is total for every oracle — no exception escapes to the
caller. -/

/-- The `debug_info` payload copied verbatim into `data_info`. -/
structure DebugInfo where
  total_channels : ℕ
  total_samples : ℕ
  board_id : ℤ
  deriving DecidableEq, Repr

/-- The `sensor_data` dictionary handed to `process_realtime_data`. -/
structure RTInput where
  ppg : List ℚ
  timestamp : List ℚ
  eda : List ℚ
  temperature : List ℚ
  debug_info : Option DebugInfo

/-- The metrics dictionary `process_realtime_data` returns.  Keys absent
from a given return path are `none`; the wall-clock `timestamp` entry is
outside the model. -/
structure RTMetrics where
  status : String
  message : Option String
  heart_rate : Option ℝ
  ppg_signal_quality : Option ℝ
  ppg_mean : Option ℚ
  eda_level : Option ℚ
  eda_variation : Option ℝ
  temperature : Option ℚ
  stress_score : Option ℝ
  sdnn : Option ℝ
  rmssd : Option ℝ
  data_info : Option DebugInfo

/-- Which `try` blocks of `process_realtime_data` raise: the outer
catch-all, and the PPG / EDA / temperature / stress blocks. -/
structure FailOracle where
  outer : Bool
  ppg : Bool
  eda : Bool
  temp : Bool
  stress : Bool
  deriving DecidableEq, Fintype, Repr

/-- The run in which no block raises. -/
def noFail : FailOracle := ⟨false, false, false, false, false⟩

/-- The dictionary built by the outer `except` clause: status `"error"`
with all snapshot fields degraded to 0 (the exception text is abstracted). -/
def errorMetrics : RTMetrics :=
  { status := "error", message := some "internal error", heart_rate := some 0
    ppg_signal_quality := none, ppg_mean := none, eda_level := some 0
    eda_variation := none, temperature := some 0, stress_score := some 0
    sdnn := none, rmssd := none, data_info := none }

/-- The early return when neither PPG nor EDA data is present. -/
def noSensorDataMetrics : RTMetrics :=
  { status := "no_sensor_data", message := some "No PPG or EDA data available"
    heart_rate := none, ppg_signal_quality := none, ppg_mean := none
    eda_level := none, eda_variation := none, temperature := none
    stress_score := none, sdnn := none, rmssd := none, data_info := none }

/-- The stress block (lines 210–224): EDA contribution
`min(100, eda_level * 1000) if eda_level > 0 else 0`, heart-rate
contribution `max(0, (heart_rate - 60) * 2) if heart_rate > 60 else 0`,
averaged, clamped to [0, 100] and rounded. -/
noncomputable def stressCalc (edaLevel : ℚ) (heartRate : ℝ) : ℝ :=
  let stressFromEda : ℝ := if 0 < edaLevel then min 100 ((edaLevel : ℝ) * 1000) else 0
  let stressFromHr : ℝ := if 60 < heartRate then max 0 ((heartRate - 60) * 2) else 0
  round1R (max 0 (min 100 ((stressFromEda + stressFromHr) / 2)))

/-- `HRVProcessor.process_realtime_data(sensor_data)` under a given
exception oracle.  `processRealtimeDataGen noFail` is the exception-free
run. -/
noncomputable def processRealtimeDataGen (f : FailOracle) (inp : RTInput) : RTMetrics :=
  if f.outer then errorMetrics
  else if inp.ppg = [] ∧ inp.eda = [] then noSensorDataMetrics
  else
    let pm := meanQ inp.ppg
    let pstd : ℝ := if inp.ppg.length ≤ 1 then 0 else npStdQ inp.ppg
    let hrQualMean : Option ℝ × Option ℝ × Option ℚ :=
      if inp.ppg = [] then (some 0, some 0, none)
      else if f.ppg then (some 0, some 0, none)
      else
        (some (round1R (max 40 (min 180 (if 0 < pm then 60 + pstd / (pm : ℝ) * 40 else 0)))),
         some (if 0 < pm then round1R (pstd / (pm : ℝ) * 100) else 0),
         some (round1Q pm))
    let edaLV : Option ℚ × Option ℝ :=
      if inp.eda = [] then (some 0, some 0)
      else if f.eda then (some 0, some 0)
      else
        (some (round6Q (meanQ inp.eda)),
         some (round6R (if inp.eda.length ≤ 1 then 0 else npStdQ inp.eda)))
    let tmp : Option ℚ :=
      if inp.temperature = [] then some 0
      else if f.temp then some 0
      else some (round2Q (meanQ inp.temperature))
    let st : Option ℝ :=
      if f.stress then some 0
      else some (stressCalc ((edaLV.1).getD 0) ((hrQualMean.1).getD 0))
    let q : ℝ := (hrQualMean.2.1).getD 0
    { status := "processing", message := none
      heart_rate := hrQualMean.1, ppg_signal_quality := hrQualMean.2.1
      ppg_mean := hrQualMean.2.2
      eda_level := edaLV.1, eda_variation := edaLV.2
      temperature := tmp, stress_score := st
      sdnn := some (q / 2), rmssd := some (q / 3)
      data_info := inp.debug_info }

/-! ### Specification-side formulations (for refinement comparisons) -/

/-- The spec's stress formula:
`clamp(0, 100, 0.5 × min(100, eda_level × 1000) + 0.5 × max(0, (heart_rate − 60) × 2))`. -/
noncomputable def specStressFormula (edaLevel : ℚ) (heartRate : ℝ) : ℝ :=
  max 0 (min 100
    ((1 / 2) * min 100 ((edaLevel : ℝ) * 1000) + (1 / 2) * max 0 ((heartRate - 60) * 2)))

/-- The spec's population variance: sum of squared deviations over `n`. -/
def specVarQ (l : List ℚ) : ℚ := (l.map (fun x => (x - meanQ l) ^ 2)).sum / l.length

/-- The spec's population standard deviation. -/
noncomputable def specPopStd (l : List ℚ) : ℝ := Real.sqrt ((specVarQ l : ℚ) : ℝ)

/-- The spec's mean of squared consecutive differences, phrased over the
list of consecutive pairs. -/
def specMsdQ (l : List ℚ) : ℚ :=
  ((l.zip l.tail).map (fun p => (p.2 - p.1) ^ 2)).sum / (l.zip l.tail).length

/-- The spec's RMSSD: root of the mean of squared consecutive differences. -/
noncomputable def specRmssd (l : List ℚ) : ℝ := Real.sqrt ((specMsdQ l : ℚ) : ℝ)

/-- How one slot of `MainAssign` evolves over the remaining channel
windows: keep the current contents if nonempty, otherwise take the first
window whose mean satisfies the slot's selector. -/
def slotFill (cur : List ℚ) (p : ℚ → Bool) (ws : List (List ℚ)) : List ℚ :=
  if cur = [] then (ws.find? (fun w => p (avgOf w))).getD [] else cur

/-! ## Theorems -/

/-! ### Generic helper lemmas -/

theorem pushDeque_length_le {α : Type} (cap : ℕ) (l : List α) (x : α) :
    (pushDeque cap l x).length ≤ cap ⊔ l.length := by
  simp only [pushDeque, List.length_drop, List.length_append, List.length_cons,
    List.length_nil]
  omega

theorem pushDeque_length_le_cap {α : Type} (cap : ℕ) (l : List α) (x : α)
    (h : l.length ≤ cap) : (pushDeque cap l x).length ≤ cap := by
  have := pushDeque_length_le cap l x
  omega

theorem pushDeque_full {α : Type} (cap : ℕ) (l : List α) (x : α)
    (hc : 0 < cap) (hl : l.length = cap) :
    pushDeque cap l x = l.drop 1 ++ [x] := by
  unfold pushDeque
  have h1 : l.length + 1 - cap = 1 := by omega
  rw [h1]
  cases l with
  | nil => simp at hl; omega
  | cons a t => simp

theorem foldl_pushPairs_le (cap : ℕ) :
    ∀ (pairs : List (ℚ × ℚ)) (b : List PpgSample), b.length ≤ cap →
      (pairs.foldl (fun acc p => pushDeque cap acc ⟨p.1, p.2⟩) b).length ≤ cap := by
  intro pairs
  induction pairs with
  | nil => intro b hb; simpa using hb
  | cons p rest ih =>
    intro b hb
    simpa using ih (pushDeque cap b ⟨p.1, p.2⟩)
      (pushDeque_length_le_cap cap b ⟨p.1, p.2⟩ hb)

theorem lastN_ne_nil (c : List ℚ) (h : c ≠ []) : lastN 10 c ≠ [] := by
  have hc : 0 < c.length := List.length_pos.mpr h
  have : (lastN 10 c).length = c.length - (c.length - 10) := by
    simp [lastN]
  intro hnil
  rw [hnil] at this
  simp at this
  omega

theorem le_round1R_of_le (a : ℤ) (x : ℝ) (h : (a : ℝ) ≤ x) : (a : ℝ) ≤ round1R x := by
  have h1 : (10 * a : ℤ) ≤ round (10 * x) := by
    rw [round_eq]
    have hmono : ((10 * a : ℤ) : ℝ) + 1 / 2 ≤ 10 * x + 1 / 2 := by push_cast; linarith
    have h2 := Int.floor_le_floor hmono
    rw [Int.floor_int_add] at h2
    have h3 : ⌊(1 / 2 : ℝ)⌋ = 0 := by norm_num
    omega
  unfold round1R
  have h4 : ((10 * a : ℤ) : ℝ) ≤ ((round (10 * x) : ℤ) : ℝ) := Int.cast_le.mpr h1
  push_cast at h4
  linarith

theorem round1R_le_of_le (x : ℝ) (b : ℤ) (h : x ≤ (b : ℝ)) : round1R x ≤ (b : ℝ) := by
  have h1 : round (10 * x) ≤ (10 * b : ℤ) := by
    rw [round_eq]
    have hmono : 10 * x + 1 / 2 ≤ ((10 * b : ℤ) : ℝ) + 1 / 2 := by push_cast; linarith
    have h2 := Int.floor_le_floor hmono
    rw [Int.floor_int_add] at h2
    have h3 : ⌊(1 / 2 : ℝ)⌋ = 0 := by norm_num
    omega
  unfold round1R
  have h4 : ((round (10 * x) : ℤ) : ℝ) ≤ ((10 * b : ℤ) : ℝ) := Int.cast_le.mpr h1
  push_cast at h4
  linarith

theorem round1R_intCast (n : ℤ) : round1R ((n : ℤ) : ℝ) = ((n : ℤ) : ℝ) := by
  unfold round1R
  have h : (10 : ℝ) * (n : ℝ) = ((10 * n : ℤ) : ℝ) := by push_cast; ring
  rw [h, round_intCast]
  push_cast
  ring

theorem round_sqrt_eq (v : ℝ) (n : ℕ) (hn : 1 ≤ n) (h0 : 0 ≤ v)
    (hl : ((2 * n - 1 : ℝ)) ^ 2 ≤ 4 * v) (hu : 4 * v < ((2 * n + 1 : ℝ)) ^ 2) :
    round (Real.sqrt v) = n := by
  have hnn := Real.sqrt_nonneg v
  have hn1 : (1 : ℝ) ≤ (n : ℝ) := by exact_mod_cast hn
  have hlo : (n : ℝ) - 1 / 2 ≤ Real.sqrt v := by
    have hx : (0 : ℝ) ≤ (n : ℝ) - 1 / 2 := by linarith
    have hsq : ((n : ℝ) - 1 / 2) ^ 2 ≤ v := by nlinarith
    calc (n : ℝ) - 1 / 2 = Real.sqrt (((n : ℝ) - 1 / 2) ^ 2) := (Real.sqrt_sq hx).symm
    _ ≤ Real.sqrt v := Real.sqrt_le_sqrt hsq
  have hhi : Real.sqrt v < (n : ℝ) + 1 / 2 := by
    have hsq : v < ((n : ℝ) + 1 / 2) ^ 2 := by nlinarith
    calc Real.sqrt v < Real.sqrt (((n : ℝ) + 1 / 2) ^ 2) := Real.sqrt_lt_sqrt h0 hsq
    _ = (n : ℝ) + 1 / 2 := Real.sqrt_sq (by positivity)
  rw [round_eq]
  apply Int.floor_eq_iff.mpr
  constructor
  · push_cast
    linarith
  · push_cast
    linarith

theorem round1R_sqrt (q : ℚ) (n : ℕ) (hn : 1 ≤ n) (h0 : 0 ≤ q)
    (hl : ((2 * n - 1 : ℝ)) ^ 2 ≤ 4 * (100 * (q : ℝ)))
    (hu : 4 * (100 * (q : ℝ)) < ((2 * n + 1 : ℝ)) ^ 2) :
    round1R (Real.sqrt ((q : ℚ) : ℝ)) = (n : ℝ) / 10 := by
  have h0r : (0 : ℝ) ≤ (q : ℝ) := by exact_mod_cast h0
  unfold round1R
  have h10 : (10 : ℝ) * Real.sqrt (q : ℝ) = Real.sqrt (100 * (q : ℝ)) := by
    rw [show (100 : ℝ) * (q : ℝ) = 10 ^ 2 * (q : ℝ) by norm_num,
      Real.sqrt_mul (by positivity) ((q : ℚ) : ℝ), Real.sqrt_sq (by norm_num)]
  rw [h10, round_sqrt_eq (100 * (q : ℝ)) n hn (by positivity) hl hu]
  norm_num

theorem sqrt_le_of_sq (v b : ℝ) (hb : 0 ≤ b) (h : v ≤ b ^ 2) : Real.sqrt v ≤ b := by
  calc Real.sqrt v ≤ Real.sqrt (b ^ 2) := Real.sqrt_le_sqrt h
  _ = b := Real.sqrt_sq hb

theorem round1R_clamp_bounds (x : ℝ) :
    0 ≤ round1R (max 0 (min 100 x)) ∧ round1R (max 0 (min 100 x)) ≤ 100 := by
  have hlo : ((0 : ℤ) : ℝ) ≤ max 0 (min 100 x) := by
    push_cast
    exact le_max_left 0 _
  have hhi : max 0 (min 100 x) ≤ ((100 : ℤ) : ℝ) := by
    push_cast
    exact max_le (by norm_num) (min_le_left 100 x)
  have h1 := le_round1R_of_le 0 _ hlo
  have h2 := round1R_le_of_le _ 100 hhi
  push_cast at h1 h2
  exact ⟨h1, h2⟩

theorem calcRRAux_eq_filter (ts : List ℚ) :
    ∀ peaks : List ℕ, calcRRAux ts peaks
      = (consecDiffsMs peaks ts).filter (fun r => decide (300 ≤ r) && decide (r ≤ 2000)) := by
  intro peaks
  induction peaks with
  | nil => simp [calcRRAux, consecDiffsMs]
  | cons p rest ih =>
    cases rest with
    | nil => simp [calcRRAux, consecDiffsMs]
    | cons q rest2 =>
      have hstep : consecDiffsMs (p :: q :: rest2) ts
          = (tsAt ts q - tsAt ts p) * 1000 :: consecDiffsMs (q :: rest2) ts := by
        simp [consecDiffsMs]
      rw [hstep, List.filter_cons]
      simp only [calcRRAux]
      by_cases hm : 300 ≤ (tsAt ts q - tsAt ts p) * 1000 ∧ (tsAt ts q - tsAt ts p) * 1000 ≤ 2000
      · have hb : (decide (300 ≤ (tsAt ts q - tsAt ts p) * 1000)
            && decide ((tsAt ts q - tsAt ts p) * 1000 ≤ 2000)) = true := by
          simp [hm.1, hm.2]
        rw [if_pos hm, ih]
        simp [hb]
      · have hb : (decide (300 ≤ (tsAt ts q - tsAt ts p) * 1000)
            && decide ((tsAt ts q - tsAt ts p) * 1000 ≤ 2000)) = false := by
          rcases not_and_or.mp hm with h1 | h1 <;> simp [h1]
        rw [if_neg hm, ih]
        simp [hb]

/-- C3: `calculate_rr_intervals` converts consecutive peak timestamp
differences to milliseconds and keeps an interval exactly when it lies in
[300, 2000] ms, preserving order (it is the order-preserving filter of the
consecutive-difference list); on consecutive-peak intervals
[280, 500, 1600, 2100, 650] ms it returns [500, 1600, 650] ms. -/
theorem rr_interval_filter_c3 (peaks : List ℕ) (ts : List ℚ)
    (hb : ∀ p ∈ peaks, p < ts.length) :
    calculateRRIntervals peaks ts
      = (consecDiffsMs peaks ts).filter (fun r => decide (300 ≤ r) && decide (r ≤ 2000)) ∧
    calculateRRIntervals [0, 1, 2, 3, 4, 5]
      [0, 28/100, 78/100, 238/100, 448/100, 513/100] = [500, 1600, 650] := by
  constructor
  · unfold calculateRRIntervals
    by_cases h2 : peaks.length < 2
    · match peaks, h2 with
      | [], _ => simp [consecDiffsMs]
      | [p], _ => simp [consecDiffsMs]
    · simp [h2, calcRRAux_eq_filter]
  · norm_num [calculateRRIntervals, calcRRAux, tsAt, List.getD]

theorem rr_interval_filter_c3_witness :
    calculateRRIntervals [0, 1, 2, 3, 4, 5]
      [0, 28/100, 78/100, 238/100, 448/100, 513/100] = [500, 1600, 650] :=
  (rr_interval_filter_c3 [0, 1, 2, 3, 4, 5]
    [0, 28/100, 78/100, 238/100, 448/100, 513/100] (by decide)).2

/-- C7: bounded sample buffers are fixed-capacity FIFOs: a push never
leaves more than `cap` entries, a push onto a full buffer drops exactly the
oldest entry, pushing 1..6 onto an empty capacity-5 buffer leaves
[2, 3, 4, 5, 6], and `add_ppg_data` keeps the PPG buffer within its
capacity. -/
theorem sample_buffer_fifo_c7 (α : Type) (cap : ℕ) (l : List α) (x : α)
    (buf : List PpgSample) (d t : List ℚ) (hl : l.length ≤ cap)
    (hbuf : buf.length ≤ ppgBufferCap) :
    (pushDeque cap l x).length ≤ cap ∧
    (0 < cap → l.length = cap → pushDeque cap l x = l.drop 1 ++ [x]) ∧
    List.foldl (pushDeque 5) [] [1, 2, 3, 4, 5, 6] = [2, 3, 4, 5, 6] ∧
    (addPpgData buf d t).length ≤ ppgBufferCap := by
  refine ⟨pushDeque_length_le_cap cap l x hl,
    fun hc hfull => pushDeque_full cap l x hc hfull, by decide, ?_⟩
  unfold addPpgData
  exact foldl_pushPairs_le ppgBufferCap (d.zip t) buf hbuf

theorem sample_buffer_fifo_c7_witness :
    (pushDeque 5 [(1:ℕ), 2, 3, 4, 5] 6).length ≤ 5 ∧
    (0 < 5 → [(1:ℕ), 2, 3, 4, 5].length = 5 →
      pushDeque 5 [(1:ℕ), 2, 3, 4, 5] 6 = [(1:ℕ), 2, 3, 4, 5].drop 1 ++ [6]) ∧
    List.foldl (pushDeque 5) [] [1, 2, 3, 4, 5, 6] = [2, 3, 4, 5, 6] ∧
    (addPpgData [] [1, 2] [3, 4]).length ≤ ppgBufferCap :=
  sample_buffer_fifo_c7 ℕ 5 [1, 2, 3, 4, 5] 6 [] [1, 2] [3, 4]
    (by decide) (by decide)

/-- C9 counterexample: eviction is silent.  Pushing onto the full
capacity-2 buffer [10, 20] loses the oldest entry and yields exactly the
state produced by a non-evicting push onto [20]; the buffer state — the
only state the source maintains for these deques — records nothing about
the eviction, so no `BufferOverflowError` counter is incremented (none
exists in the code). -/
theorem buffer_overflow_silent_counterexample_c9 :
    pushDeque 2 [(10:ℕ), 20] 30 = [20, 30] ∧
    pushDeque 2 [(20:ℕ)] 30 = [20, 30] ∧
    [(10:ℕ), 20].length = 2 ∧ [(20:ℕ)].length < 2 := by decide

/-- C9 (amended): every push onto a full bounded buffer evicts exactly the
oldest entry and does so silently: the resulting state is identical to the
state produced by a non-evicting push onto the buffer with its oldest entry
already absent, and no overflow counter exists in the state. -/
theorem buffer_eviction_silent_c9 (α : Type) (cap : ℕ) (l : List α) (x : α)
    (hc : 0 < cap) (hl : l.length = cap) :
    pushDeque cap l x = l.drop 1 ++ [x] ∧
    pushDeque cap l x = pushDeque cap (l.drop 1) x ∧
    (l.drop 1).length < cap := by
  have h1 := pushDeque_full cap l x hc hl
  have hd : (l.drop 1).length = cap - 1 := by simp [hl]
  refine ⟨h1, ?_, by omega⟩
  rw [h1]
  unfold pushDeque
  rw [hd]
  have : cap - 1 + 1 - cap = 0 := by omega
  rw [this]
  simp

theorem buffer_eviction_silent_c9_witness :
    pushDeque 2 [(1:ℕ), 2] 3 = [(1:ℕ), 2].drop 1 ++ [3] ∧
    pushDeque 2 [(1:ℕ), 2] 3 = pushDeque 2 ([(1:ℕ), 2].drop 1) 3 ∧
    ([(1:ℕ), 2].drop 1).length < 2 :=
  buffer_eviction_silent_c9 ℕ 2 [1, 2] 3 (by decide) (by decide)

/-- C6: `start_streaming` with no board attached fails (returns `False`,
and the `/streaming/start` route raises the documented
"Device not connected" HTTP error) and leaves the service state — in
particular `is_streaming` — unchanged; and no lifecycle step turns
`is_streaming` on unless a board is attached (the session never becomes
Streaming without being Connected first). -/
theorem start_streaming_guard_c6 :
    ∀ (s : SvcState) (op : SvcOp) (extOk : Bool),
      (s.board = none → startStreamingSvc s extOk = (false, s) ∧
        routeStartStreaming s extOk
          = RouteResult.httpError 500 "400: Device not connected" s) ∧
      (s.isStreaming = false → (stepSvc op s).isStreaming = true → s.board ≠ none) := by
  decide

theorem slotFill_of_ne (cur : List ℚ) (p : ℚ → Bool) (ws : List (List ℚ))
    (h : cur ≠ []) : slotFill cur p ws = cur := if_neg h

theorem slotFill_cons_neg (cur : List ℚ) (p : ℚ → Bool) (w : List ℚ)
    (ws : List (List ℚ)) (h : p (avgOf w) = false) :
    slotFill cur p (w :: ws) = slotFill cur p ws := by
  unfold slotFill
  rw [List.find?_cons_of_neg _ (by simp [h])]

theorem slotFill_nil_cons_pos (p : ℚ → Bool) (w : List ℚ) (ws : List (List ℚ))
    (h : p (avgOf w) = true) : slotFill [] p (w :: ws) = w := by
  unfold slotFill
  rw [if_pos rfl, List.find?_cons_of_pos _ (by simp [h])]
  rfl

theorem classifyGo_char : ∀ (ws : List (List ℚ)) (sp se st : List ℚ),
    (∀ w ∈ ws, w ≠ []) →
    classifyGo ws ⟨sp, se, st⟩
      = ⟨slotFill sp ppgLike ws, slotFill se edaSel ws, slotFill st tempSel ws⟩ := by
  intro ws
  induction ws with
  | nil =>
    intro sp se st h
    simp only [classifyGo, slotFill, List.find?_nil, Option.getD_none,
      MainAssign.mk.injEq]
    refine ⟨?_, ?_, ?_⟩ <;> (split_ifs with hh; exacts [hh, rfl])
  | cons w ws ih =>
    intro sp se st h
    have hw : w ≠ [] := h w (List.mem_cons_self w ws)
    have hws : ∀ v ∈ ws, v ≠ [] := fun v hv => h v (List.mem_cons_of_mem w hv)
    simp only [classifyGo]
    by_cases hppg : ppgLike (avgOf w) = true
    · have heda : edaSel (avgOf w) = false := by simp [edaSel, hppg]
      have htmp : tempSel (avgOf w) = false := by simp [tempSel, hppg]
      rw [if_pos hppg]
      by_cases hsp : sp = []
      · rw [if_pos hsp, ih _ _ _ hws]
        subst hsp
        simp only [MainAssign.mk.injEq]
        exact ⟨by rw [slotFill_nil_cons_pos _ _ _ hppg, slotFill_of_ne _ _ _ hw],
          by rw [slotFill_cons_neg _ _ _ _ heda],
          by rw [slotFill_cons_neg _ _ _ _ htmp]⟩
      · rw [if_neg hsp, ih _ _ _ hws]
        simp only [MainAssign.mk.injEq]
        exact ⟨by rw [slotFill_of_ne _ _ _ hsp, slotFill_of_ne _ _ _ hsp],
          by rw [slotFill_cons_neg _ _ _ _ heda],
          by rw [slotFill_cons_neg _ _ _ _ htmp]⟩
    · have hppgf : ppgLike (avgOf w) = false := by
        cases hpc : ppgLike (avgOf w) with
        | true => exact absurd hpc hppg
        | false => rfl
      rw [if_neg hppg]
      by_cases hed : edaRange (avgOf w) = true
      · have heda : edaSel (avgOf w) = true := by simp [edaSel, hppgf, hed]
        have htmp : tempSel (avgOf w) = false := by simp [tempSel, hed]
        rw [if_pos hed]
        by_cases hse : se = []
        · rw [if_pos hse, ih _ _ _ hws]
          subst hse
          simp only [MainAssign.mk.injEq]
          exact ⟨by rw [slotFill_cons_neg _ _ _ _ hppgf],
            by rw [slotFill_nil_cons_pos _ _ _ heda, slotFill_of_ne _ _ _ hw],
            by rw [slotFill_cons_neg _ _ _ _ htmp]⟩
        · rw [if_neg hse, ih _ _ _ hws]
          simp only [MainAssign.mk.injEq]
          exact ⟨by rw [slotFill_cons_neg _ _ _ _ hppgf],
            by rw [slotFill_of_ne _ _ _ hse, slotFill_of_ne _ _ _ hse],
            by rw [slotFill_cons_neg _ _ _ _ htmp]⟩
      · have hedf : edaRange (avgOf w) = false := by
          cases hec : edaRange (avgOf w) with
          | true => exact absurd hec hed
          | false => rfl
        have heda : edaSel (avgOf w) = false := by simp [edaSel, hedf]
        rw [if_neg hed]
        by_cases htm : tempRange (avgOf w) = true
        · have htmp : tempSel (avgOf w) = true := by simp [tempSel, hppgf, hedf, htm]
          rw [if_pos htm]
          by_cases hst : st = []
          · rw [if_pos hst, ih _ _ _ hws]
            subst hst
            simp only [MainAssign.mk.injEq]
            exact ⟨by rw [slotFill_cons_neg _ _ _ _ hppgf],
              by rw [slotFill_cons_neg _ _ _ _ heda],
              by rw [slotFill_nil_cons_pos _ _ _ htmp, slotFill_of_ne _ _ _ hw]⟩
          · rw [if_neg hst, ih _ _ _ hws]
            simp only [MainAssign.mk.injEq]
            exact ⟨by rw [slotFill_cons_neg _ _ _ _ hppgf],
              by rw [slotFill_cons_neg _ _ _ _ heda],
              by rw [slotFill_of_ne _ _ _ hst, slotFill_of_ne _ _ _ hst]⟩
        · have htmf : tempRange (avgOf w) = false := by
            cases htc : tempRange (avgOf w) with
            | true => exact absurd htc htm
            | false => rfl
          have htmp : tempSel (avgOf w) = false := by simp [tempSel, htmf]
          rw [if_neg htm, ih _ _ _ hws]
          simp only [MainAssign.mk.injEq]
          exact ⟨by rw [slotFill_cons_neg _ _ _ _ hppgf],
            by rw [slotFill_cons_neg _ _ _ _ heda],
            by rw [slotFill_cons_neg _ _ _ _ htmp]⟩

/-- C5 counterexample: a channel whose windowed mean is exactly 1000 has
`|mean| ∈ [1000, 100000]` (the claimed closed PPG band) and a channel with
windowed mean 15 lies in the claimed motion band [-20, 20], yet the code
assigns neither: the PPG comparison is strict (`1000 < |mean| < 100000`)
and no motion-axis heuristic exists in the fallback, so both channels are
dropped and every slot stays empty. -/
theorem channel_heuristic_counterexample_c5 :
    classifyMainChannels [[1000], [15, 15]] = ⟨[], [], []⟩ ∧
    avgOf [1000] = 1000 ∧ ((1000 : ℚ) ≤ 1000 ∧ (1000 : ℚ) ≤ 100000) ∧
    avgOf [15, 15] = 15 ∧ ((-20 : ℚ) ≤ 15 ∧ (15 : ℚ) ≤ 20) := by
  have h1 : avgOf [1000] = 1000 := by simp [avgOf, meanQ]
  have h2 : avgOf [15, 15] = 15 := by simp [avgOf, meanQ]
  refine ⟨?_, h1, by norm_num, h2, by norm_num⟩
  simp [classifyMainChannels, classifyGo, lastN, h1, h2, ppgLike, edaRange, tempRange]
  norm_num

/-- C5 (amended): when no preset yields data, the heuristic classification
fills each of the PPG, EDA and temperature slots with the last-10-sample
window of the first channel (among the first 10) whose windowed mean
satisfies that slot's condition — PPG iff `1000 < |mean| < 100000`
(strictly), EDA iff the PPG branch missed and `mean ∈ [0, 10]`, temperature
iff both earlier branches missed and `mean ∈ [20, 45]`; each channel feeds
at most one slot, first claimed wins, there is no motion-axis heuristic,
and channels matching nothing are dropped without aborting the frame. -/
theorem channel_heuristic_amended_c5 (chs : List (List ℚ))
    (h : ∀ c ∈ chs, c ≠ []) :
    classifyMainChannels chs
      = ⟨firstWindow ppgLike chs, firstWindow edaSel chs, firstWindow tempSel chs⟩ := by
  unfold classifyMainChannels
  have hw : ∀ w ∈ (chs.take 10).map (lastN 10), w ≠ [] := by
    intro w hmem
    rcases List.mem_map.mp hmem with ⟨c, hc, rfl⟩
    exact lastN_ne_nil c (h c (List.take_subset 10 chs hc))
  rw [classifyGo_char _ _ _ _ hw]
  simp [slotFill, firstWindow]

theorem channel_heuristic_amended_c5_witness :
    classifyMainChannels [[5], [2000], [30]]
      = ⟨firstWindow ppgLike [[5], [2000], [30]],
         firstWindow edaSel [[5], [2000], [30]],
         firstWindow tempSel [[5], [2000], [30]]⟩ :=
  channel_heuristic_amended_c5 [[5], [2000], [30]] (by simp)

theorem start_streaming_guard_c6_witness :
    (startStreamingSvc svcInit true = (false, svcInit) ∧
      routeStartStreaming svcInit true
        = RouteResult.httpError 500 "400: Device not connected" svcInit) ∧
    (SvcState.mk (some BoardKind.real) false false).board ≠ none :=
  ⟨(start_streaming_guard_c6 svcInit (SvcOp.startStream true) true).1 rfl,
   (start_streaming_guard_c6 ⟨some BoardKind.real, false, false⟩
      (SvcOp.startStream true) true).2 rfl (by decide)⟩

theorem diffsQ_eq_zip (l : List ℚ) :
    diffsQ l = (l.zip l.tail).map (fun p => p.2 - p.1) := by
  unfold diffsQ
  induction l with
  | nil => simp
  | cons x xs ih =>
    cases xs with
    | nil => simp
    | cons y ys =>
      simp only [List.tail_cons] at ih ⊢
      rw [List.zipWith_cons_cons, List.zip_cons_cons, List.map_cons, ih]

theorem npStdQ_eq_specPopStd (l : List ℚ) : npStdQ l = specPopStd l := by
  unfold npStdQ specPopStd popVarQ specVarQ meanQ
  rw [List.length_map]

theorem msdQ_eq_specMsdQ (l : List ℚ) : msdQ l = specMsdQ l := by
  unfold msdQ specMsdQ meanQ
  rw [diffsQ_eq_zip]
  simp [List.map_map, List.length_map, Function.comp_def]

theorem sqrt50_le_20 : ¬ (20 : ℝ) < Real.sqrt ((50 : ℚ) : ℝ) := by
  intro hlt
  have hle : Real.sqrt ((50 : ℚ) : ℝ) ≤ 20 := by
    apply sqrt_le_of_sq
    · norm_num
    · push_cast
      norm_num
  linarith

theorem hrvMetrics_concrete_fields :
    ∃ m, calculateHrvMetrics [800, 810, 790, 805, 795] = some m ∧
      m.heart_rate = 75 ∧ m.mean_rr = 800 ∧ m.sdnn = 71 / 10 ∧
      m.rmssd = 144 / 10 ∧ m.hrv_quality = "low" := by
  have hm : meanQ [800, 810, 790, 805, 795] = 800 := by norm_num [meanQ]
  have hv : popVarQ [800, 810, 790, 805, 795] = 50 := by norm_num [popVarQ, meanQ]
  have hmsd : msdQ [800, 810, 790, 805, 795] = 825 / 4 := by
    norm_num [msdQ, diffsQ, meanQ]
  unfold calculateHrvMetrics
  rw [if_neg (by norm_num)]
  refine ⟨_, rfl, ?_, ?_, ?_, ?_, ?_⟩
  · show round1Q (if 0 < meanQ [800, 810, 790, 805, 795]
        then 60000 / meanQ [800, 810, 790, 805, 795] else 0) = 75
    rw [hm]
    norm_num [round1Q, round_eq]
  · show round1Q (meanQ [800, 810, 790, 805, 795]) = 800
    rw [hm]
    norm_num [round1Q, round_eq]
  · show round1R (npStdQ [800, 810, 790, 805, 795]) = 71 / 10
    unfold npStdQ
    rw [hv]
    have h := round1R_sqrt 50 71 (by norm_num) (by norm_num)
      (by push_cast; norm_num) (by push_cast; norm_num)
    rw [h]
    norm_num
  · show round1R (Real.sqrt ((msdQ [800, 810, 790, 805, 795] : ℚ) : ℝ)) = 144 / 10
    rw [hmsd]
    have h := round1R_sqrt (825 / 4) 144 (by norm_num) (by norm_num)
      (by push_cast; norm_num) (by push_cast; norm_num)
    rw [h]
    norm_num
  · show (if 20 < npStdQ [800, 810, 790, 805, 795] then "good" else "low") = "low"
    unfold npStdQ
    rw [hv, if_neg sqrt50_le_20]

/-- C2 counterexample: at RR = [800, 810, 790, 805, 795] the code's RMSSD
(root of the mean of squared consecutive differences, `sqrt(825/4) ≈ 14.36`)
rounds to 14.4, not to the claimed ≈ 11.62 (→ 11.6): the claim's concrete
expected value is wrong for the formula both it and the code state. -/
theorem hrv_rmssd_counterexample_c2 :
    ∃ m, calculateHrvMetrics [800, 810, 790, 805, 795] = some m ∧
      m.rmssd = 144 / 10 ∧ ((144 : ℝ) / 10 ≠ 116 / 10) := by
  obtain ⟨m, hm, _, _, _, hr, _⟩ := hrvMetrics_concrete_fields
  exact ⟨m, hm, hr, by norm_num⟩

/-- C2 (amended): for every list of at least 5 RR intervals with positive
mean (physiological RR intervals are), `calculate_hrv_metrics` returns
heart_rate = 60000 / mean(RR), SDNN = population standard deviation,
RMSSD = sqrt of the mean of squared consecutive differences, each rounded
to one decimal place, with quality "good" iff SDNN > 20; at
RR = [800, 810, 790, 805, 795] this gives mean_rr = 800, heart_rate = 75.0,
SDNN ≈ 7.07 (→ 7.1), RMSSD = sqrt(206.25) ≈ 14.36 (→ 14.4, not the
claimed 11.62) and quality "low". -/
theorem hrv_metrics_formula_c2 :
    (∀ rr : List ℚ, 5 ≤ rr.length → 0 < meanQ rr →
      ∃ m, calculateHrvMetrics rr = some m ∧
        m.heart_rate = round1Q (60000 / meanQ rr) ∧
        m.mean_rr = round1Q (meanQ rr) ∧
        m.sdnn = round1R (specPopStd rr) ∧
        m.rmssd = round1R (specRmssd rr) ∧
        (m.hrv_quality = "good" ↔ 20 < specPopStd rr)) ∧
    (∃ m, calculateHrvMetrics [800, 810, 790, 805, 795] = some m ∧
      m.heart_rate = 75 ∧ m.mean_rr = 800 ∧ m.sdnn = 71 / 10 ∧
      m.rmssd = 144 / 10 ∧ m.hrv_quality = "low") := by
  refine ⟨?_, hrvMetrics_concrete_fields⟩
  intro rr h5 hmean
  unfold calculateHrvMetrics
  rw [if_neg (by omega)]
  refine ⟨_, rfl, ?_, rfl, ?_, ?_, ?_⟩
  · show round1Q (if 0 < meanQ rr then 60000 / meanQ rr else 0)
      = round1Q (60000 / meanQ rr)
    rw [if_pos hmean]
  · show round1R (npStdQ rr) = round1R (specPopStd rr)
    rw [npStdQ_eq_specPopStd]
  · show round1R (Real.sqrt ((msdQ rr : ℚ) : ℝ)) = round1R (specRmssd rr)
    unfold specRmssd
    rw [msdQ_eq_specMsdQ]
  · show (if 20 < npStdQ rr then "good" else "low") = "good" ↔ 20 < specPopStd rr
    rw [npStdQ_eq_specPopStd]
    split_ifs with hq
    · simp [hq]
    · simp [hq]

theorem hrv_metrics_formula_c2_witness :
    ∃ m, calculateHrvMetrics [800, 810, 790, 805, 795] = some m ∧
      m.heart_rate = round1Q (60000 / meanQ [800, 810, 790, 805, 795]) ∧
      m.mean_rr = round1Q (meanQ [800, 810, 790, 805, 795]) ∧
      m.sdnn = round1R (specPopStd [800, 810, 790, 805, 795]) ∧
      m.rmssd = round1R (specRmssd [800, 810, 790, 805, 795]) ∧
      (m.hrv_quality = "good" ↔ 20 < specPopStd [800, 810, 790, 805, 795]) :=
  hrv_metrics_formula_c2.1 [800, 810, 790, 805, 795] (by norm_num)
    (by norm_num [meanQ])

/-- C4 counterexample: at `eda_level = -1`, `heart_rate = 300` the code's
stress block yields 100 (a non-positive EDA level contributes 0), while the
claimed formula `clamp(0,100, 0.5·min(100, eda·1000) + 0.5·max(0,(hr−60)·2))`
yields 0 (the term `0.5·min(100, −1000) = −500` drags the sum below the
clamp floor), so the claimed equality fails for this input. -/
theorem stress_formula_counterexample_c4 :
    stressCalc (-1) 300 = 100 ∧ specStressFormula (-1) 300 = 0 ∧
    stressCalc (-1) 300 ≠ specStressFormula (-1) 300 := by
  have h1 : stressCalc (-1) 300 = 100 := by
    unfold stressCalc
    rw [if_neg (by norm_num), if_pos (by norm_num : (60 : ℝ) < 300)]
    show round1R (max 0 (min 100 ((0 + max 0 (((300 : ℝ) - 60) * 2)) / 2))) = 100
    rw [show max (0 : ℝ) (((300 : ℝ) - 60) * 2) = 480 by norm_num [max_def]]
    rw [show max (0 : ℝ) (min 100 ((0 + (480 : ℝ)) / 2)) = 100 by norm_num [max_def, min_def]]
    have h100 := round1R_intCast 100
    push_cast at h100
    exact h100
  have h2 : specStressFormula (-1) 300 = 0 := by
    unfold specStressFormula
    rw [show ((((-1 : ℚ)) : ℝ) * 1000) = -1000 by push_cast; ring]
    norm_num [max_def, min_def]
  exact ⟨h1, h2, by rw [h1, h2]; norm_num⟩

/-- C4 (amended): for every non-negative `eda_level` (EDA levels in the
realtime path are means of skin-conductance readings) and every
`heart_rate`, the stress score of the realtime path equals the claimed
formula `clamp(0,100, 0.5·min(100, eda·1000) + 0.5·max(0,(hr−60)·2))`
rounded to one decimal place, and it always lies in [0, 100] (in
particular at the extreme inputs eda_level = 1000, heart_rate = 300). -/
theorem stress_formula_amended_c4 (eda : ℚ) (hr : ℝ) (h : 0 ≤ eda) :
    stressCalc eda hr = round1R (specStressFormula eda hr) ∧
    0 ≤ stressCalc eda hr ∧ stressCalc eda hr ≤ 100 := by
  have heq : stressCalc eda hr = round1R (specStressFormula eda hr) := by
    unfold stressCalc specStressFormula
    have hA : (if 0 < eda then min 100 ((eda : ℝ) * 1000) else 0)
        = min 100 ((eda : ℝ) * 1000) := by
      by_cases hpos : 0 < eda
      · rw [if_pos hpos]
      · have heda0 : eda = 0 := le_antisymm (not_lt.mp hpos) h
        subst heda0
        rw [if_neg hpos]
        norm_num
    have hB : (if 60 < hr then max 0 ((hr - 60) * 2) else 0)
        = max 0 ((hr - 60) * 2) := by
      by_cases h6 : 60 < hr
      · rw [if_pos h6]
      · rw [if_neg h6]
        have hle : (hr - 60) * 2 ≤ 0 := by nlinarith [not_lt.mp h6]
        rw [max_eq_left hle]
    rw [hA, hB]
    ring_nf
  have hb : 0 ≤ stressCalc eda hr ∧ stressCalc eda hr ≤ 100 := by
    unfold stressCalc
    exact round1R_clamp_bounds _
  exact ⟨heq, hb⟩

theorem stress_formula_amended_c4_witness :
    stressCalc 1000 300 = round1R (specStressFormula 1000 300) ∧
    0 ≤ stressCalc 1000 300 ∧ stressCalc 1000 300 ≤ 100 :=
  stress_formula_amended_c4 1000 300 (by norm_num)

theorem processRealtime_noFail_heart_rate (inp : RTInput) (h : inp.ppg ≠ []) :
    (processRealtimeDataGen noFail inp).heart_rate
      = some (round1R (max 40 (min 180 (if 0 < meanQ inp.ppg then
          60 + (if inp.ppg.length ≤ 1 then (0 : ℝ) else npStdQ inp.ppg)
            / ((meanQ inp.ppg : ℚ) : ℝ) * 40 else 0)))) := by
  simp [processRealtimeDataGen, noFail, h]

/-- C10: whenever PPG data is present, the realtime path's degraded
heart-rate estimate `60 + std/mean·40` (0 when the mean is not positive)
is clamped to [40, 180] before rounding, so the reported heart rate always
lies in [40, 180]; consequently it equals 0 only if the PPG mean is not
positive (vacuously — it is never 0). -/
theorem degraded_hr_range_c10 (inp : RTInput) (h : inp.ppg ≠ []) :
    ∃ hrv : ℝ, (processRealtimeDataGen noFail inp).heart_rate = some hrv ∧
      40 ≤ hrv ∧ hrv ≤ 180 ∧ (hrv = 0 → ¬ 0 < meanQ inp.ppg) := by
  have hb : ∀ z : ℝ, 40 ≤ round1R (max 40 (min 180 z)) ∧
      round1R (max 40 (min 180 z)) ≤ 180 := by
    intro z
    have h1 : ((40 : ℤ) : ℝ) ≤ max 40 (min 180 z) := by
      push_cast
      exact le_max_left _ _
    have h2 : max 40 (min 180 z) ≤ ((180 : ℤ) : ℝ) := by
      push_cast
      exact max_le (by norm_num) (min_le_left _ _)
    have hb1 := le_round1R_of_le 40 _ h1
    have hb2 := round1R_le_of_le _ 180 h2
    push_cast at hb1 hb2
    exact ⟨hb1, hb2⟩
  refine ⟨_, processRealtime_noFail_heart_rate inp h, (hb _).1, (hb _).2, ?_⟩
  intro h0
  have h40 := (hb (if 0 < meanQ inp.ppg then
    60 + (if inp.ppg.length ≤ 1 then (0 : ℝ) else npStdQ inp.ppg)
      / ((meanQ inp.ppg : ℚ) : ℝ) * 40 else 0)).1
  rw [h0] at h40
  norm_num at h40

theorem degraded_hr_range_c10_witness :
    ∃ hrv : ℝ,
      (processRealtimeDataGen noFail ⟨[0, 2], [], [], [], none⟩).heart_rate
        = some hrv ∧
      40 ≤ hrv ∧ hrv ≤ 180 ∧
      (hrv = 0 → ¬ 0 < meanQ (RTInput.mk [0, 2] [] [] [] none).ppg) :=
  degraded_hr_range_c10 ⟨[0, 2], [], [], [], none⟩ (by simp)

/-- C1: the spec is right and the code is wrong (the source itself labels
the fabricated fields "Placeholder").  With fewer than 5 valid RR
intervals `calculate_hrv_metrics` returns the empty dictionary — no
"degraded"-quality, `HRVInsufficientDataError`-backed result exists
anywhere — while the live realtime path fabricates SDNN and RMSSD from the
unrelated PPG signal-quality percentage divided by 2 and 3: on
PPG = [0, 2] (ppg_signal_quality = 100.0) it reports sdnn = 50 and
rmssd = 100/3, exactly the conflation of raw-signal variability with
RR-derived HRV that the specification forbids. -/
theorem hrv_placeholder_fabrication_c1 :
    (∀ rr : List ℚ, rr.length < 5 → calculateHrvMetrics rr = none) ∧
    (processRealtimeDataGen noFail ⟨[0, 2], [], [], [], none⟩).ppg_signal_quality
      = some 100 ∧
    (processRealtimeDataGen noFail ⟨[0, 2], [], [], [], none⟩).sdnn = some 50 ∧
    (processRealtimeDataGen noFail ⟨[0, 2], [], [], [], none⟩).rmssd
      = some (100 / 3) ∧
    (processRealtimeDataGen noFail ⟨[0, 2], [], [], [], none⟩).status
      = "processing" := by
  have h1 : ∀ rr : List ℚ, rr.length < 5 → calculateHrvMetrics rr = none := by
    intro rr hlt
    unfold calculateHrvMetrics
    rw [if_pos hlt]
  have hm : meanQ [0, 2] = 1 := by norm_num [meanQ]
  have hv : popVarQ [0, 2] = 1 := by norm_num [popVarQ, meanQ]
  have hstd : npStdQ [0, 2] = 1 := by
    unfold npStdQ
    rw [hv]
    push_cast
    exact Real.sqrt_one
  have h100 : round1R (100 : ℝ) = 100 := by
    have := round1R_intCast 100
    push_cast at this
    exact this
  refine ⟨h1, ?_, ?_, ?_, ?_⟩ <;>
    simp [processRealtimeDataGen, noFail, hm, hstd, h100] <;> norm_num

theorem hrv_placeholder_fabrication_c1_witness :
    calculateHrvMetrics [800, 810] = none :=
  hrv_placeholder_fabrication_c1.1 [800, 810] (by norm_num)

/-- C8: `process_realtime_data` returns a result dictionary for every
input and every pattern of internal failures (no exception propagates),
and each failing block degrades exactly its own snapshot fields to the
documented defaults: the outer catch-all returns the error dictionary with
heart_rate, eda_level, temperature and stress_score all 0; a failing PPG /
EDA / temperature / stress block yields 0 for that block's fields while the
rest of the aggregation proceeds. -/
theorem realtime_no_exception_c8 (f : FailOracle) (inp : RTInput) :
    ((processRealtimeDataGen f inp).status = "processing" ∨
     (processRealtimeDataGen f inp).status = "no_sensor_data" ∨
     (processRealtimeDataGen f inp).status = "error") ∧
    (f.outer = true → processRealtimeDataGen f inp = errorMetrics ∧
      errorMetrics.heart_rate = some 0 ∧ errorMetrics.eda_level = some 0 ∧
      errorMetrics.temperature = some 0 ∧ errorMetrics.stress_score = some 0) ∧
    (f.outer = false → ¬(inp.ppg = [] ∧ inp.eda = []) →
      ((f.ppg = true → (processRealtimeDataGen f inp).heart_rate = some 0 ∧
          (processRealtimeDataGen f inp).ppg_signal_quality = some 0) ∧
       (f.eda = true → (processRealtimeDataGen f inp).eda_level = some 0 ∧
          (processRealtimeDataGen f inp).eda_variation = some 0) ∧
       (f.temp = true → (processRealtimeDataGen f inp).temperature = some 0) ∧
       (f.stress = true →
          (processRealtimeDataGen f inp).stress_score = some 0))) := by
  by_cases ho : f.outer = true
  · refine ⟨Or.inr (Or.inr ?_), fun _ => ⟨?_, rfl, rfl, rfl, rfl⟩,
      fun hf => absurd ho (by simp [hf])⟩
    · simp [processRealtimeDataGen, ho, errorMetrics]
    · simp [processRealtimeDataGen, ho]
  · have hof : f.outer = false := by
      cases hoc : f.outer
      · rfl
      · exact absurd hoc ho
    by_cases hboth : inp.ppg = [] ∧ inp.eda = []
    · refine ⟨Or.inr (Or.inl ?_), fun h => absurd h ho,
        fun _ hne => absurd hboth hne⟩
      simp [processRealtimeDataGen, hof, hboth, noSensorDataMetrics]
    · refine ⟨Or.inl ?_, fun h => absurd h ho, fun _ _ => ⟨?_, ?_, ?_, ?_⟩⟩
      · simp [processRealtimeDataGen, hof, hboth]
      · intro hp
        by_cases hpe : inp.ppg = []
        · have hene : inp.eda ≠ [] := fun hee => hboth ⟨hpe, hee⟩
          constructor <;> simp [processRealtimeDataGen, hof, hboth, hpe, hene]
        · constructor <;> simp [processRealtimeDataGen, hof, hboth, hpe, hp]
      · intro he
        by_cases hee : inp.eda = []
        · have hpne : inp.ppg ≠ [] := fun hp => hboth ⟨hp, hee⟩
          constructor <;> simp [processRealtimeDataGen, hof, hboth, hee, hpne]
        · constructor <;> simp [processRealtimeDataGen, hof, hboth, hee, he]
      · intro ht
        by_cases hte : inp.temperature = []
        · simp [processRealtimeDataGen, hof, hboth, hte]
        · simp [processRealtimeDataGen, hof, hboth, hte, ht]
      · intro hs
        simp [processRealtimeDataGen, hof, hboth, hs]

theorem realtime_no_exception_c8_witness :
    ((processRealtimeDataGen ⟨false, true, true, true, true⟩
        ⟨[0, 2], [], [], [], none⟩).heart_rate = some 0 ∧
      (processRealtimeDataGen ⟨false, true, true, true, true⟩
        ⟨[0, 2], [], [], [], none⟩).ppg_signal_quality = some 0) ∧
    (processRealtimeDataGen ⟨false, true, true, true, true⟩
        ⟨[0, 2], [], [], [], none⟩).stress_score = some 0 :=
  ⟨((realtime_no_exception_c8 ⟨false, true, true, true, true⟩
      ⟨[0, 2], [], [], [], none⟩).2.2 rfl (by simp)).1 rfl,
   ((realtime_no_exception_c8 ⟨false, true, true, true, true⟩
      ⟨[0, 2], [], [], [], none⟩).2.2 rfl (by simp)).2.2.2 rfl⟩

end HealBe
